import Mathlib

/-!
Shallow embedding of the `asyncio_chat` relationship core
(`src/models/user_model.py` and the websocket delivery loop in
`src/routes/ws_route.py`).

The Mongo collection `users_db` is modelled as a list of stored documents;
`find_one` is first-match lookup, `count_documents` is `countP`,
`UpdateOne` with an `_id` filter updates the first matching document, and
`bulk_write` applies its operations in order.  A relationship operation is
embedded as a function from the loaded actor state and the database to
`Except Err (List WriteOp)`: the Python code performs all of its
validation (raises) before calling `bulk_write` once, which the embedding
mirrors by returning either an error or the batch of write operations.
-/

/-- User ids stand in for BSON ObjectIds. -/
abbrev UserId := Nat

/-- Modelled from the spec: `src/models/enums.py` is not part of the
provided sources; the spec describes `status` as an enum
`offline/online/...` and the code uses the constants `Status.offline`
(dataclass default) and `Status.online` (set at registration). -/
inductive Status where
  | offline
  | online
  deriving DecidableEq, Repr

/-- A stored user document.  `Option` fields model Mongo fields that may be
absent from a document (`none` = the field does not exist).  The `deleted`
flag models presence of the `deleted: true` field set by `delete_user`
(registration never writes a `deleted` field, so the Mongo query
`deleted: {$exists: False}` is `deleted = false` here). -/
structure StoredUser where
  _id : UserId
  nick : String
  created_at : Nat
  bot : Bool := false
  deleted : Bool := false
  status : Status := Status.offline
  text_status : String := ""
  code : Option String := none
  parent : Option UserId := none
  token : Option String := none
  login : Option String := none
  password : Option String := none
  salt : Option String := none
  blocked : List UserId := []
  friends : List UserId := []
  pendings_outgoing : List UserId := []
  pendings_incoming : List UserId := []
  deriving DecidableEq, Repr

/-- The `chat_users` collection. -/
abbrev DB := List StoredUser

/-- `users_db.find_one({'_id': i}, ...)`: first document with the id. -/
def findById (db : DB) (i : UserId) : Option StoredUser :=
  db.find? (fun u => u._id == i)

/-- The relation-set fields touched by `$push` / `$pull` updates. -/
inductive UField where
  | blocked
  | friends
  | pendings_outgoing
  | pendings_incoming
  deriving DecidableEq, Repr

/-- One `UpdateOne({'_id': d}, {'$push'/{'$pull'}: {f: v}})` element of a
`bulk_write` batch. -/
inductive WriteOp where
  | push (d : UserId) (f : UField) (v : UserId)
  | pull (d : UserId) (f : UField) (v : UserId)
  deriving DecidableEq, Repr

def applyField (f : UField) (g : List UserId → List UserId)
    (u : StoredUser) : StoredUser :=
  match f with
  | .blocked => { u with blocked := g u.blocked }
  | .friends => { u with friends := g u.friends }
  | .pendings_outgoing => { u with pendings_outgoing := g u.pendings_outgoing }
  | .pendings_incoming => { u with pendings_incoming := g u.pendings_incoming }

/-- Document transformation performed by one update: `$push` appends,
`$pull` removes every occurrence. -/
def WriteOp.transform : WriteOp → StoredUser → StoredUser
  | .push _ f v => applyField f (fun l => l ++ [v])
  | .pull _ f v => applyField f (fun l => l.filter (fun x => x != v))

def WriteOp.docId : WriteOp → UserId
  | .push d _ _ => d
  | .pull d _ _ => d

def WriteOp.field : WriteOp → UField
  | .push _ f _ => f
  | .pull _ f _ => f

/-- Apply a transformation to the first document matching the id
(`UpdateOne` filter semantics). -/
def updById (i : UserId) (g : StoredUser → StoredUser) : DB → DB
  | [] => []
  | u :: rest =>
      if u._id == i then g u :: rest else u :: updById i g rest

def applyOne (db : DB) (w : WriteOp) : DB :=
  updById w.docId w.transform db

/-- `users_db.bulk_write(ops)`: ordered application of the batch. -/
def applyWrites (db : DB) (ops : List WriteOp) : DB :=
  ops.foldl applyOne db

/-- The error kinds raised by `UserModel` (the `exc` namespace plus plain
`ValueError`, plus the uncaught Python `TypeError` that
`_get_salt_hashed_login` produces when no document matches the login). -/
inductive Err where
  | UnavailableForBots
  | InvalidUser (msg : String)
  | UserNotInGroup (msg : String)
  | ValidationError (msg : String)
  | NoneTypeError
  deriving DecidableEq, Repr

/-- Runs an operation result against the database: an error performs no
write, a success applies the returned batch. -/
def runDB (db : DB) (r : Except Err (List WriteOp)) : DB :=
  match r with
  | .error _ => db
  | .ok ops => applyWrites db ops

def exceptOk {α : Type} : Except Err α → Bool
  | .ok _ => true
  | .error _ => false

/-- `UserModel._valid_user_id`: counts documents with the given id, the
requested `bot` flag and no `deleted` field. -/
def valid_user_id (db : DB) (user_id : UserId) (bot : Bool := false) : Bool :=
  0 < db.countP (fun u => u._id == user_id && u.bot == bot && !u.deleted)

/-- `UserModel._check_blocked`: counts documents with the given id whose
`blocked` array contains `is_blocked`. -/
def check_blocked (db : DB) (check_user_id is_blocked : UserId) : Bool :=
  0 < db.countP (fun u => u._id == check_user_id && u.blocked.contains is_blocked)

/-- `UserModel.send_friend_request` (validation, then one `bulk_write`). -/
def send_friend_request (db : DB) (self : StoredUser) (to_user_id : UserId) :
    Except Err (List WriteOp) :=
  if self.bot then
    .error .UnavailableForBots
  else if !valid_user_id db to_user_id false then
    .error (.InvalidUser "User isn't valid or is bot")
  else if check_blocked db to_user_id self._id then
    .error (.InvalidUser "User blocked you")
  else if self.blocked.contains to_user_id then
    .error (.InvalidUser "You blocked user yourself")
  else if self.pendings_incoming.contains to_user_id ||
      self.pendings_outgoing.contains to_user_id ||
      self.friends.contains to_user_id then
    .error (.InvalidUser "User is in some relations with you already")
  else
    .ok [.push self._id .pendings_outgoing to_user_id,
         .push to_user_id .pendings_incoming self._id]

/-- `UserModel.response_friend_request`. -/
def response_friend_request (self : StoredUser) (user_id : UserId)
    (confirm : Bool := true) : Except Err (List WriteOp) :=
  if self.bot then
    .error .UnavailableForBots
  else if !(self.pendings_incoming.contains user_id) then
    .error (.UserNotInGroup "User isn't in incoming pendings")
  else
    .ok ([.pull user_id .pendings_outgoing self._id,
          .pull self._id .pendings_incoming user_id] ++
      (if confirm then
        [.push self._id .friends user_id,
         .push user_id .friends self._id]
       else []))

/-- `UserModel.cancel_friend_request`. -/
def cancel_friend_request (self : StoredUser) (user_id : UserId) :
    Except Err (List WriteOp) :=
  if self.bot then
    .error .UnavailableForBots
  else if !(self.pendings_outgoing.contains user_id) then
    .error (.UserNotInGroup "User isn't in outgoing pendings")
  else
    .ok [.pull self._id .pendings_outgoing user_id,
         .pull user_id .pendings_incoming self._id]

/-- `UserModel.delete_friend`. -/
def delete_friend (self : StoredUser) (user_id : UserId) :
    Except Err (List WriteOp) :=
  if self.bot then
    .error .UnavailableForBots
  else if !(self.friends.contains user_id) then
    .error (.UserNotInGroup "User isn't a friend")
  else
    .ok [.pull self._id .friends user_id,
         .pull user_id .friends self._id]

/-- `UserModel.block_user`.  Note: the source has no bot check here, and
the two pending branches pull the fields exactly as the source writes
them (the `pendings_incoming` branch pulls `pendings_outgoing` edges and
vice versa). -/
def block_user (db : DB) (self : StoredUser) (blocking : UserId) :
    Except Err (List WriteOp) :=
  if !valid_user_id db blocking false || self.blocked.contains blocking then
    .error (.UserNotInGroup "User is already blocked or invalid")
  else
    .ok ([.push self._id .blocked blocking] ++
      (if self.pendings_incoming.contains blocking then
        [.pull self._id .pendings_outgoing blocking,
         .pull blocking .pendings_incoming self._id]
       else []) ++
      (if self.pendings_outgoing.contains blocking then
        [.pull blocking .pendings_outgoing self._id,
         .pull self._id .pendings_incoming blocking]
       else []) ++
      (if self.friends.contains blocking then
        [.pull self._id .friends blocking,
         .pull blocking .friends self._id]
       else []))

/-- `UserModel.unblock_user` (no bot check in the source). -/
def unblock_user (self : StoredUser) (unblocking : UserId) :
    Except Err (List WriteOp) :=
  if !(self.blocked.contains unblocking) then
    .error (.UserNotInGroup "User isn't blocked")
  else
    .ok [.pull self._id .blocked unblocking]

/-- The `count_documents` filter of `registrate_bot`: documents whose
`parent` field equals the given parent and that have no `deleted` field. -/
def botCount (db : DB) (parent : UserId) : Nat :=
  db.countP (fun u => u.parent == some parent && !u.deleted)

/-- `UserModel.registrate_bot`.  `new_id`, `tok` and `now` stand for the
inserted id, `generate_token()` and `datetime.utcnow()`.  On success the
new document is appended to the collection. -/
def registrate_bot (db : DB) (nick : String) (parent : UserId)
    (new_id : UserId) (tok : String) (now : Nat) : Except Err DB :=
  if botCount db parent > 20 then
    .error (.ValidationError "Too many bots")
  else
    .ok (db ++ [{
      _id := new_id,
      nick := nick,
      created_at := now,
      bot := true,
      parent := some parent,
      status := Status.online,
      token := some tok }])

/-- `UserModel._get_salt_hashed_login`: `find_one({'login': login},
{'salt': 1})` followed by `salt['salt']`.  `none` models the case where
no document matched (in Python the subscript on `None` raises
`TypeError`). -/
def get_salt_hashed_login (db : DB) (login : String) : Option String :=
  (db.find? (fun u => u.login == some login)).bind (fun u => u.salt)

/-- The login+password path of `UserModel.authorize`.  `sha` abstracts
`sha256(...).hexdigest()` and `kdf` abstracts
`pbkdf2_hmac('sha256', password, salt, iterations).hex()`; the source
passes the literal iteration count `100000`. -/
def authorize_password (sha : String → String)
    (kdf : String → String → Nat → String) (db : DB)
    (login password : String) : Except Err StoredUser :=
  let loginHash := sha login
  match get_salt_hashed_login db loginHash with
  | none => .error .NoneTypeError
  | some salt =>
      let passwordHash := kdf password salt 100000
      match db.find? (fun u =>
          u.login == some loginHash && u.password == some passwordHash) with
      | none => .error (.InvalidUser "No such user")
      | some u => .ok u

/-!  Delivery loop (`WebsocketNotifier.__call__`).  One cycle snapshots
`len(self.message_pool)`, then pops index 0 and sends that many times;
messages arriving during the flush are appended at the tail of the pool.
`arr` gives, per pop step, the batch of messages enqueued right after
that send. -/

/-- The `for _ in range(k)` flush: pop the head, transmit it, append the
arrivals of that step.  Returns the transmitted messages in order and
the pool left behind. -/
def flushLoop {α : Type} : Nat → List α → List (List α) → List α × List α
  | 0, pool, _ => ([], pool)
  | _ + 1, [], _ => ([], [])
  | k + 1, m :: rest, arr =>
      let r := flushLoop k (rest ++ arr.headD []) arr.tail
      (m :: r.1, r.2)

/-- One delivery-loop cycle: `message_pool_length = len(self.message_pool)`
then exactly that many pops. -/
def cycle {α : Type} (pool : List α) (arr : List (List α)) :
    List α × List α :=
  flushLoop pool.length pool arr

/-- Repeated cycles, one arrival schedule per cycle. -/
def cyclesRun {α : Type} (pool : List α) :
    List (List (List α)) → List α × List α
  | [] => ([], pool)
  | a :: rest =>
      let c := cycle pool a
      let r := cyclesRun c.2 rest
      (c.1 ++ r.1, r.2)

/-- A schedule is realizable when no cycle has more per-step arrival
batches than the flush has steps. -/
def schedOk {α : Type} (pool : List α) : List (List (List α)) → Bool
  | [] => true
  | a :: rest => a.length ≤ pool.length && schedOk a.flatten rest

/-!  Public listings (`EXCLUDE_PUBLIC` projection, `UserModel(**user)`
reconstruction with dataclass defaults, and `public_dict`). -/

/-- A document as returned by `users_db.find(..., EXCLUDE_PUBLIC)`: the
projection drops `code`, `salt`, `token`, `login`, `password`, `status`,
`parent`, `blocked`, `friends`, `pendings_outgoing`,
`pendings_incoming`. -/
structure ProjectedPublic where
  _id : UserId
  nick : String
  created_at : Nat
  bot : Bool
  deleted : Bool
  text_status : String
  deriving DecidableEq, Repr

def projectPublic (u : StoredUser) : ProjectedPublic :=
  { _id := u._id, nick := u.nick, created_at := u.created_at,
    bot := u.bot, deleted := u.deleted, text_status := u.text_status }

/-- `UserModel(**user)` applied to a projected document: every field the
projection removed takes its dataclass default (`status` becomes
`Status.offline`, `parent` and `token` become `None`, the relation sets
become empty lists). -/
def userModelOfPublic (p : ProjectedPublic) : StoredUser :=
  { _id := p._id, nick := p.nick, created_at := p.created_at,
    bot := p.bot, deleted := p.deleted, text_status := p.text_status }

/-- The dictionary built by `UserModel.public_dict`; the `deleted` key is
present only when the flag is set. -/
structure PublicDict where
  _id : UserId
  status : Status
  text_status : String
  bot : Bool
  nick : String
  created_at : Nat
  deleted : Option Bool
  deriving DecidableEq, Repr

def public_dict (u : StoredUser) : PublicDict :=
  { _id := u._id, status := u.status, text_status := u.text_status,
    bot := u.bot, nick := u.nick, created_at := u.created_at,
    deleted := if u.deleted then some true else none }

/-- `UserModel.get_friends`: empty for bot actors, otherwise the matched
documents sorted by nick descending, each fetched through the
`EXCLUDE_PUBLIC` projection, rebuilt as a `UserModel` and projected with
`public_dict`. -/
def get_friends (self : StoredUser) (db : DB) (fetch_friends : List UserId) :
    List PublicDict :=
  if self.bot then []
  else
    ((db.filter (fun u => fetch_friends.contains u._id)).mergeSort
        (fun a b => b.nick ≤ a.nick)).map
      (fun u => public_dict (userModelOfPublic (projectPublic u)))

/-- `UserModel.get_blocked`: like `get_friends` but with no bot check and
no sort. -/
def get_blocked (db : DB) (fetch_blocked : List UserId) : List PublicDict :=
  (db.filter (fun u => fetch_blocked.contains u._id)).map
    (fun u => public_dict (userModelOfPublic (projectPublic u)))

/-- The matched-edge invariant of the spec for one pair of loaded
documents: friendship and pending edges come in matched pairs. -/
def matchedPair (a b : StoredUser) : Prop :=
  (b._id ∈ a.friends ↔ a._id ∈ b.friends) ∧
  (b._id ∈ a.pendings_outgoing ↔ a._id ∈ b.pendings_incoming) ∧
  (b._id ∈ a.pendings_incoming ↔ a._id ∈ b.pendings_outgoing)

instance (a b : StoredUser) : Decidable (matchedPair a b) := by
  unfold matchedPair; infer_instance

/-! Helper lemmas about the embedded document store. -/

theorem transform_id (w : WriteOp) (u : StoredUser) :
    (w.transform u)._id = u._id := by
  cases w <;> rename_i d f v <;> cases f <;> rfl

theorem findById_updById (i j : UserId) (g : StoredUser → StoredUser)
    (hg : ∀ u, (g u)._id = u._id) (db : DB) :
    findById (updById i g db) j =
      if j = i then (findById db j).map g else findById db j := by
  induction db with
  | nil => by_cases hji : j = i <;> simp [findById, updById, hji]
  | cons u rest ih =>
      by_cases hui : u._id = i
      · have hupd : updById i g (u :: rest) = g u :: rest := by
          simp [updById, hui]
        rw [hupd]
        by_cases hji : j = i
        · subst hji
          simp [findById, List.find?_cons_of_pos, hg, hui]
        · have hgu : ((g u)._id == j) = false := by
            simp [hg, hui]; exact fun h => hji h.symm
          have hu : (u._id == j) = false := by
            simp [hui]; exact fun h => hji h.symm
          simp [findById, List.find?, hgu, hu, hji]
      · have hupd : updById i g (u :: rest) = u :: updById i g rest := by
          simp [updById, hui]
        rw [hupd]
        by_cases huj : u._id = j
        · have hji : ¬ (j = i) := fun h => hui (huj.trans h)
          simp [findById, List.find?, huj, hji]
        · have hu : (u._id == j) = false := by simp [huj]
          simpa [findById, List.find?, hu] using ih

theorem findById_applyOne_eq (db : DB) (w : WriteOp) :
    findById (applyOne db w) w.docId =
      (findById db w.docId).map w.transform := by
  rw [applyOne, findById_updById _ _ _ (fun u => transform_id w u), if_pos rfl]

theorem findById_applyOne_ne (db : DB) (w : WriteOp) (j : UserId)
    (h : j ≠ w.docId) :
    findById (applyOne db w) j = findById db j := by
  rw [applyOne, findById_updById _ _ _ (fun u => transform_id w u), if_neg h]

theorem applyWrites_cons (db : DB) (w : WriteOp) (ws : List WriteOp) :
    applyWrites db (w :: ws) = applyWrites (applyOne db w) ws := rfl

theorem transform_blocked (w : WriteOp) (u : StoredUser)
    (h : w.field ≠ UField.blocked) : (w.transform u).blocked = u.blocked := by
  cases w <;> rename_i d f v <;> cases f <;>
    simp_all [WriteOp.field, WriteOp.transform, applyField]

theorem blocked_applyWrites (ops : List WriteOp)
    (hops : ∀ w ∈ ops, w.field ≠ UField.blocked) :
    ∀ (db : DB) (j : UserId) (u : StoredUser), findById db j = some u →
      ∃ u2, findById (applyWrites db ops) j = some u2 ∧
        u2.blocked = u.blocked := by
  induction ops with
  | nil => exact fun db j u hu => ⟨u, hu, rfl⟩
  | cons w ws ih =>
      intro db j u hu
      have hw := hops w (List.mem_cons_self _ _)
      have hws : ∀ w2 ∈ ws, w2.field ≠ UField.blocked :=
        fun w2 hmem => hops w2 (List.mem_cons_of_mem _ hmem)
      rw [applyWrites_cons]
      by_cases hj : j = w.docId
      · have h1 : findById (applyOne db w) j = some (w.transform u) := by
          rw [hj] at hu ⊢
          rw [findById_applyOne_eq, hu]; rfl
        obtain ⟨u2, h2, h3⟩ := ih hws (applyOne db w) j (w.transform u) h1
        exact ⟨u2, h2, h3.trans (transform_blocked w u hw)⟩
      · have h1 : findById (applyOne db w) j = some u := by
          rw [findById_applyOne_ne _ _ _ hj]; exact hu
        exact ih hws (applyOne db w) j u h1

/-! Helper lemmas about the delivery loop. -/

theorem flushLoop_spec {α : Type} (k : Nat) :
    ∀ (pool : List α) (arr : List (List α)), k ≤ pool.length →
      flushLoop k pool arr =
        (pool.take k, pool.drop k ++ (arr.take k).flatten) := by
  induction k with
  | zero => intro pool arr _; simp [flushLoop]
  | succ k ih =>
      intro pool arr h
      match pool with
      | [] => simp at h
      | m :: rest =>
          have hk : k ≤ rest.length := Nat.le_of_succ_le_succ h
          have hk2 : k ≤ (rest ++ arr.headD []).length := by
            rw [List.length_append]; omega
          rw [flushLoop, ih (rest ++ arr.headD []) arr.tail hk2]
          cases arr with
          | nil =>
              simp [List.take_append_of_le_length hk,
                List.drop_append_of_le_length hk]
          | cons a as =>
              simp [List.take_append_of_le_length hk,
                List.drop_append_of_le_length hk, List.take_succ_cons]

theorem cycle_spec {α : Type} (pool : List α) (arr : List (List α)) :
    cycle pool arr = (pool, (arr.take pool.length).flatten) := by
  rw [cycle, flushLoop_spec pool.length pool arr le_rfl]
  simp

theorem cyclesRun_spec {α : Type} :
    ∀ (scheds : List (List (List α))) (pool : List α),
      schedOk pool scheds = true →
      (cyclesRun pool scheds).1 ++ (cyclesRun pool scheds).2 =
        pool ++ (scheds.map List.flatten).flatten := by
  intro scheds
  induction scheds with
  | nil => intro pool _; simp [cyclesRun]
  | cons a rest ih =>
      intro pool h
      rw [schedOk, Bool.and_eq_true] at h
      obtain ⟨h1, h2⟩ := h
      have hlen : a.length ≤ pool.length := by simpa using h1
      have htake : a.take pool.length = a := List.take_of_length_le hlen
      rw [cyclesRun]
      simp only [cycle_spec, htake]
      rw [List.append_assoc, ih a.flatten h2]
      simp

/-! Claim theorems. -/

/-- User 1, who has a pending friend request from user 2 (the matched
edge pair 2 ∈ pendings_incoming of user 1 and 1 ∈ pendings_outgoing of
user 2). -/
def c1A : StoredUser :=
  { _id := 1, nick := "a", created_at := 0, pendings_incoming := [2] }

def c1B : StoredUser :=
  { _id := 2, nick := "b", created_at := 0, pendings_outgoing := [1] }

/-- C1 (code bug): with a pending request from B to A in place,
`block(A, B)` succeeds and adds B to A.blocked, yet both pending edges
survive the write batch: the branch of `block_user` guarded by
`blocking in self.pendings_incoming` pulls the `pendings_outgoing` edge
of A and the `pendings_incoming` edge of B (and the other branch the
mirror image), which are exactly the two edges that are absent, so the
matched pending pair is never removed, B ∈ A.pendings_incoming still
holds after the block, and the at-most-one-relation invariant is broken
rather than restored. -/
theorem c1_block_not_exclusive :
    exceptOk (block_user [c1A, c1B] c1A 2) = true ∧
    (findById (runDB [c1A, c1B] (block_user [c1A, c1B] c1A 2)) 1).map
        (fun u => (u.blocked, u.pendings_incoming)) = some ([2], [2]) ∧
    (findById (runDB [c1A, c1B] (block_user [c1A, c1B] c1A 2)) 2).map
        (fun u => u.pendings_outgoing) = some [1] := ⟨rfl, rfl, rfl⟩

/-- A bot actor (user 1) who has user 3 blocked, and a valid human
target (user 2). -/
def c2bot : StoredUser :=
  { _id := 1, nick := "a", created_at := 0, bot := true, blocked := [3] }

def c2hum : StoredUser := { _id := 2, nick := "b", created_at := 0 }

/-- C2 counterexample: a bot actor's `block_user` and `unblock_user`
succeed — neither method checks the bot flag — so it is not the case that
every relationship-mutating operation fails with UnavailableForBots for a
bot actor. -/
theorem c2_bot_can_block :
    c2bot.bot = true ∧
    block_user [c2bot, c2hum] c2bot 2 =
      .ok [.push 1 .blocked 2] ∧
    unblock_user c2bot 3 = .ok [.pull 1 .blocked 3] := ⟨rfl, rfl, rfl⟩

/-- C2 amended: for a bot actor the four friend-request operations
(send, respond, cancel, remove) all fail with UnavailableForBots and
perform no write, while `block_user` and `unblock_user` perform no bot
check at all (counterexample above). -/
theorem c2_bot_guard (db : DB) (self : StoredUser) (target : UserId)
    (confirm : Bool) (hbot : self.bot = true) :
    send_friend_request db self target = .error .UnavailableForBots ∧
    response_friend_request self target confirm =
      .error .UnavailableForBots ∧
    cancel_friend_request self target = .error .UnavailableForBots ∧
    delete_friend self target = .error .UnavailableForBots ∧
    runDB db (send_friend_request db self target) = db ∧
    runDB db (response_friend_request self target confirm) = db ∧
    runDB db (cancel_friend_request self target) = db ∧
    runDB db (delete_friend self target) = db := by
  simp [send_friend_request, response_friend_request,
    cancel_friend_request, delete_friend, hbot, runDB]

/-- Witness for C2 at the concrete bot actor `c2bot`. -/
theorem c2_bot_guard_witness :
    send_friend_request [] c2bot 2 = .error .UnavailableForBots ∧
    response_friend_request c2bot 2 true = .error .UnavailableForBots ∧
    cancel_friend_request c2bot 2 = .error .UnavailableForBots ∧
    delete_friend c2bot 2 = .error .UnavailableForBots ∧
    runDB [] (send_friend_request [] c2bot 2) = [] ∧
    runDB [] (response_friend_request c2bot 2 true) = [] ∧
    runDB [] (cancel_friend_request c2bot 2) = [] ∧
    runDB [] (delete_friend c2bot 2) = [] :=
  c2_bot_guard [] c2bot 2 true rfl

def c3bot (i : Nat) : StoredUser :=
  { _id := 10 + i, nick := "", created_at := 0, bot := true,
    parent := some 0 }

/-- A collection in which parent 0 already owns exactly 20 non-deleted
bots. -/
def c3db : DB := (List.range 20).map c3bot

/-- C3 counterexample: with exactly 20 non-deleted bots (at least 20, as
the claim says) the guard `has_number_of_bots > 20` is false, so
`registrate_bot` inserts a 21st bot instead of failing. -/
theorem c3_twentieth_bot_not_capped :
    botCount c3db 0 = 20 ∧
    exceptOk (registrate_bot c3db "x" 0 99 "t" 0) = true := ⟨rfl, rfl⟩

/-- C3 amended: `registrate_bot` rejects only when the parent already has
more than 20 (at least 21) non-deleted bots, inserting nothing; at 20 or
fewer it inserts a bot document owned by that parent. -/
theorem c3_bot_cap (db : DB) (nick : String) (parent new_id : UserId)
    (tok : String) (now : Nat) :
    (botCount db parent > 20 →
      registrate_bot db nick parent new_id tok now =
        .error (.ValidationError "Too many bots")) ∧
    (botCount db parent ≤ 20 →
      registrate_bot db nick parent new_id tok now =
        .ok (db ++ [{ _id := new_id, nick := nick, created_at := now,
                      bot := true, parent := some parent,
                      status := Status.online,
                      token := some tok }])) := by
  constructor
  · intro h; rw [registrate_bot, if_pos h]
  · intro h; rw [registrate_bot, if_neg (by omega)]

/-- Witness for C3: an empty collection is below the cap, so the bot is
inserted. -/
theorem c3_bot_cap_witness :
    registrate_bot [] "x" 0 99 "t" 0 =
      .ok [{ _id := 99, nick := "x", created_at := 0, bot := true,
             parent := some 0, status := Status.online,
             token := some "t" }] :=
  (c3_bot_cap [] "x" 0 99 "t" 0).2 (by decide)

/-- C7: one delivery-loop cycle transmits exactly the snapshot of the
queue taken at cycle start, in FIFO order, and the messages enqueued
during the flush are exactly what remains queued for the next cycle;
across any realizable schedule of cycles, the transmitted stream followed
by the final queue is the enqueued stream in its original order — nothing
lost, nothing reordered. -/
theorem c7_delivery_fifo {α : Type} (pool : List α) (arr : List (List α))
    (scheds : List (List (List α))) (h : schedOk pool scheds = true) :
    cycle pool arr = (pool, (arr.take pool.length).flatten) ∧
    (cyclesRun pool scheds).1 ++ (cyclesRun pool scheds).2 =
      pool ++ (scheds.map List.flatten).flatten :=
  ⟨cycle_spec pool arr, cyclesRun_spec scheds pool h⟩

/-- Witness for C7: three queued messages, two cycles, arrivals during
both flushes. -/
theorem c7_delivery_fifo_witness :
    schedOk [1, 2, 3] [[[4], [5]], [[6]]] = true ∧
    (cycle [1, 2, 3] [[4]] = ([1, 2, 3], [4]) ∧
      (cyclesRun [1, 2, 3] [[[4], [5]], [[6]]]).1 ++
        (cyclesRun [1, 2, 3] [[[4], [5]], [[6]]]).2 =
          [1, 2, 3, 4, 5, 6]) :=
  ⟨by decide, c7_delivery_fifo [1, 2, 3] [[4]] [[[4], [5]], [[6]]]
    (by decide)⟩

/-- A stored user whose digest equals the rendering of the iteration
count, to make the data flow of `authorize` visible. -/
def c8user : StoredUser :=
  { _id := 1, nick := "a", created_at := 0, login := some "lg",
    password := some "100000", salt := some "st" }

/-- C8 (code bug): the password path does feed the stored salt and the
iteration count 100000 into the keyed hash and compares the result
against the stored digest (second conjunct: a kdf that renders its
iteration argument matches the stored digest "100000"; third conjunct: a
mismatching digest yields InvalidUser) — but an unknown login does not
yield InvalidUser: `_get_salt_hashed_login` finds no document and
`salt['salt']` subscripts `None`, an uncaught TypeError (first conjunct,
modelled as `Err.NoneTypeError`). -/
theorem c8_auth_unknown_login_crashes :
    authorize_password (fun s => s) (fun _ _ n => toString n) [c8user]
      "ghost" "pw" = .error .NoneTypeError ∧
    authorize_password (fun s => s) (fun _ _ n => toString n) [c8user]
      "lg" "pw" = .ok c8user ∧
    authorize_password (fun s => s) (fun _ _ _ => "bad") [c8user]
      "lg" "pw" = .error (.InvalidUser "No such user") := ⟨rfl, rfl, rfl⟩

theorem contains_eq_false {l : List UserId} {a : UserId} (h : a ∉ l) :
    l.contains a = false := by
  cases hb : l.contains a
  · rfl
  · exact absurd (List.elem_iff.mp hb) h

/-- C4: for a non-bot actor, `send_friend_request` fails with an
InvalidUser error whenever the target is not a valid (existing,
non-deleted, non-bot) user, or the target has blocked the actor, or the
actor has blocked the target, or the pair is already in a relation; when
none of those hold it succeeds, and afterwards the matched pending pair
(target ∈ actor.pendings_outgoing, actor ∈ target.pendings_incoming) is
the only relation edge between the two documents. -/
theorem c4_send_request (db : DB) (self other : StoredUser) (tid : UserId)
    (hbot : self.bot = false)
    (hA : findById db self._id = some self)
    (hB : findById db tid = some other)
    (hne : self._id ≠ tid)
    (hmp : matchedPair self other) :
    ((valid_user_id db tid false = false ∨
        check_blocked db tid self._id = true ∨
        tid ∈ self.blocked ∨ tid ∈ self.pendings_incoming ∨
        tid ∈ self.pendings_outgoing ∨ tid ∈ self.friends) →
      ∃ m, send_friend_request db self tid = .error (.InvalidUser m)) ∧
    (valid_user_id db tid false = true →
      check_blocked db tid self._id = false →
      tid ∉ self.blocked → tid ∉ self.pendings_incoming →
      tid ∉ self.pendings_outgoing → tid ∉ self.friends →
      exceptOk (send_friend_request db self tid) = true ∧
      ∃ a b,
        findById (runDB db (send_friend_request db self tid)) self._id =
          some a ∧
        findById (runDB db (send_friend_request db self tid)) tid = some b ∧
        tid ∈ a.pendings_outgoing ∧ self._id ∈ b.pendings_incoming ∧
        tid ∉ a.blocked ∧ tid ∉ a.friends ∧ tid ∉ a.pendings_incoming ∧
        self._id ∉ b.blocked ∧ self._id ∉ b.friends ∧
        self._id ∉ b.pendings_outgoing) := by
  have hoid : other._id = tid := by
    have := List.find?_some hB
    simpa using this
  constructor
  · intro hdisj
    by_cases h1 : valid_user_id db tid false = true
    · by_cases h2 : check_blocked db tid self._id = true
      · exact ⟨"User blocked you", by
          simp [send_friend_request, hbot, h1, h2]⟩
      · by_cases h3 : tid ∈ self.blocked
        · exact ⟨"You blocked user yourself", by
            simp [send_friend_request, hbot, h1, h2, List.elem_iff, h3]⟩
        · by_cases h4 : tid ∈ self.pendings_incoming
          · exact ⟨"User is in some relations with you already", by
              simp [send_friend_request, hbot, h1, h2, List.elem_iff,
                h3, h4]⟩
          · by_cases h5 : tid ∈ self.pendings_outgoing
            · exact ⟨"User is in some relations with you already", by
                simp [send_friend_request, hbot, h1, h2, List.elem_iff,
                  h3, h4, h5]⟩
            · by_cases h6 : tid ∈ self.friends
              · exact ⟨"User is in some relations with you already", by
                  simp [send_friend_request, hbot, h1, h2, List.elem_iff,
                    h3, h4, h5, h6]⟩
              · exfalso
                rcases hdisj with h | h | h | h | h | h
                · rw [h] at h1; exact Bool.false_ne_true h1
                · exact h2 h
                · exact h3 h
                · exact h4 h
                · exact h5 h
                · exact h6 h
    · exact ⟨"User isn't valid or is bot", by
        rw [Bool.not_eq_true] at h1
        simp [send_friend_request, hbot, h1]⟩
  · intro h1 h2 h3 h4 h5 h6
    have hsend : send_friend_request db self tid =
        .ok [.push self._id .pendings_outgoing tid,
             .push tid .pendings_incoming self._id] := by
      simp [send_friend_request, hbot, h1, h2, h3, h4, h5, h6]
    refine ⟨by rw [hsend]; rfl, ?_⟩
    rw [hsend]
    have e1 : findById
        (applyOne db (.push self._id .pendings_outgoing tid)) self._id =
        some (applyField .pendings_outgoing (fun l => l ++ [tid]) self) := by
      have h := findById_applyOne_eq db (.push self._id .pendings_outgoing tid)
      rw [show (WriteOp.push self._id .pendings_outgoing tid).docId = self._id
        from rfl] at h
      rw [h, hA]; rfl
    have e2 : findById (runDB db (Except.ok
        [WriteOp.push self._id .pendings_outgoing tid,
         WriteOp.push tid .pendings_incoming self._id])) self._id =
        some (applyField .pendings_outgoing (fun l => l ++ [tid]) self) := by
      show findById (applyOne (applyOne db _) _) self._id = _
      rw [findById_applyOne_ne
        (applyOne db (.push self._id .pendings_outgoing tid))
        (.push tid .pendings_incoming self._id) self._id hne]
      exact e1
    have f1 : findById
        (applyOne db (.push self._id .pendings_outgoing tid)) tid =
        some other := by
      rw [findById_applyOne_ne db (.push self._id .pendings_outgoing tid)
        tid (fun h => hne h.symm)]
      exact hB
    have f2 : findById (runDB db (Except.ok
        [WriteOp.push self._id .pendings_outgoing tid,
         WriteOp.push tid .pendings_incoming self._id])) tid =
        some (applyField .pendings_incoming (fun l => l ++ [self._id])
          other) := by
      show findById (applyOne (applyOne db _) _) tid = _
      have h := findById_applyOne_eq
        (applyOne db (.push self._id .pendings_outgoing tid))
        (.push tid .pendings_incoming self._id)
      rw [show (WriteOp.push tid .pendings_incoming self._id).docId = tid
        from rfl] at h
      rw [h, f1]; rfl
    have hnb : self._id ∉ other.blocked := by
      intro hmem
      have hcount : db.countP
          (fun u => u._id == tid && u.blocked.contains self._id) = 0 := by
        have h2' := h2
        rw [check_blocked] at h2'
        simp only [decide_eq_false_iff_not, Nat.not_lt,
          Nat.le_zero] at h2'
        exact h2'
      have hother := List.countP_eq_zero.mp hcount other
        (List.mem_of_find?_eq_some hB)
      apply hother
      simp [hoid, List.elem_iff, hmem]
    refine ⟨applyField .pendings_outgoing (fun l => l ++ [tid]) self,
      applyField .pendings_incoming (fun l => l ++ [self._id]) other,
      e2, f2, ?_, ?_, ?_, ?_, ?_, ?_, ?_, ?_⟩
    · simp [applyField]
    · simp [applyField]
    · exact h3
    · exact h6
    · exact h4
    · exact hnb
    · intro hmem
      exact h6 ((hoid ▸ hmp.1).mpr hmem)
    · intro hmem
      exact h4 ((hoid ▸ hmp.2.2).mpr hmem)

def c4A : StoredUser := { _id := 1, nick := "a", created_at := 0 }

def c4B : StoredUser := { _id := 2, nick := "b", created_at := 0 }

/-- Witness for C4 at two fresh users: the request succeeds and the
matched pending pair is the only relation edge. -/
theorem c4_send_request_witness :
    exceptOk (send_friend_request [c4A, c4B] c4A 2) = true ∧
    ∃ a b,
      findById (runDB [c4A, c4B] (send_friend_request [c4A, c4B] c4A 2))
        1 = some a ∧
      findById (runDB [c4A, c4B] (send_friend_request [c4A, c4B] c4A 2))
        2 = some b ∧
      2 ∈ a.pendings_outgoing ∧ 1 ∈ b.pendings_incoming ∧
      2 ∉ a.blocked ∧ 2 ∉ a.friends ∧ 2 ∉ a.pendings_incoming ∧
      1 ∉ b.blocked ∧ 1 ∉ b.friends ∧ 1 ∉ b.pendings_outgoing :=
  (c4_send_request [c4A, c4B] c4A c4B 2 rfl (by decide) (by decide)
      (by decide) (by decide)).2 (by decide) (by decide) (by decide)
      (by decide) (by decide) (by decide)

theorem findById_applyOne_eq_of (db : DB) (w : WriteOp) (j : UserId)
    (hj : j = w.docId) (u : StoredUser) (hu : findById db j = some u) :
    findById (applyOne db w) j = some (w.transform u) := by
  subst hj; rw [findById_applyOne_eq, hu]; rfl

/-- C5: for a non-bot actor, responding to a pending request from `uid`
removes both pending edges of the matched pair; with confirm the matched
friendship pair is added in the same write batch, without confirm the
friends fields of both documents are untouched; and when the requester is
not in the actor's pendings_incoming, the operation fails with
UserNotInGroup. -/
theorem c5_respond_request (db : DB) (self requester : StoredUser)
    (uid : UserId) (confirm : Bool)
    (hbot : self.bot = false)
    (hA : findById db self._id = some self)
    (hR : findById db uid = some requester)
    (hne : self._id ≠ uid) :
    (uid ∉ self.pendings_incoming →
      response_friend_request self uid confirm =
        .error (.UserNotInGroup "User isn't in incoming pendings")) ∧
    (uid ∈ self.pendings_incoming →
      exceptOk (response_friend_request self uid confirm) = true ∧
      ∃ a r,
        findById (runDB db (response_friend_request self uid confirm))
          self._id = some a ∧
        findById (runDB db (response_friend_request self uid confirm))
          uid = some r ∧
        uid ∉ a.pendings_incoming ∧ self._id ∉ r.pendings_outgoing ∧
        (confirm = true → uid ∈ a.friends ∧ self._id ∈ r.friends) ∧
        (confirm = false → a.friends = self.friends ∧
          r.friends = requester.friends)) := by
  constructor
  · intro h
    simp [response_friend_request, hbot, h]
  · intro h
    cases confirm
    · have hresp : response_friend_request self uid false =
          .ok [.pull uid .pendings_outgoing self._id,
               .pull self._id .pendings_incoming uid] := by
        simp [response_friend_request, hbot, List.elem_iff, h]
      refine ⟨by rw [hresp]; rfl, ?_⟩
      rw [hresp]
      have s1 : findById
          (applyOne db (.pull uid .pendings_outgoing self._id))
          self._id = some self := by
        rw [findById_applyOne_ne db (.pull uid .pendings_outgoing self._id)
          self._id hne]
        exact hA
      have s2 : findById (applyOne
          (applyOne db (.pull uid .pendings_outgoing self._id))
          (.pull self._id .pendings_incoming uid)) self._id =
          some ((WriteOp.pull self._id .pendings_incoming uid).transform
            self) :=
        findById_applyOne_eq_of _ _ _ rfl _ s1
      have r1 : findById
          (applyOne db (.pull uid .pendings_outgoing self._id)) uid =
          some ((WriteOp.pull uid .pendings_outgoing self._id).transform
            requester) :=
        findById_applyOne_eq_of _ _ _ rfl _ hR
      have r2 : findById (applyOne
          (applyOne db (.pull uid .pendings_outgoing self._id))
          (.pull self._id .pendings_incoming uid)) uid =
          some ((WriteOp.pull uid .pendings_outgoing self._id).transform
            requester) := by
        rw [findById_applyOne_ne _ (.pull self._id .pendings_incoming uid)
          uid (fun hh => hne hh.symm)]
        exact r1
      refine ⟨_, _, s2, r2, ?_, ?_, ?_, ?_⟩
      · simp [WriteOp.transform, applyField]
      · simp [WriteOp.transform, applyField]
      · intro hc; cases hc
      · intro _
        exact ⟨rfl, rfl⟩
    · have hresp : response_friend_request self uid true =
          .ok [.pull uid .pendings_outgoing self._id,
               .pull self._id .pendings_incoming uid,
               .push self._id .friends uid,
               .push uid .friends self._id] := by
        simp [response_friend_request, hbot, List.elem_iff, h]
      refine ⟨by rw [hresp]; rfl, ?_⟩
      rw [hresp]
      have s1 : findById
          (applyOne db (.pull uid .pendings_outgoing self._id))
          self._id = some self := by
        rw [findById_applyOne_ne db (.pull uid .pendings_outgoing self._id)
          self._id hne]
        exact hA
      have s2 : findById (applyOne
          (applyOne db (.pull uid .pendings_outgoing self._id))
          (.pull self._id .pendings_incoming uid)) self._id =
          some ((WriteOp.pull self._id .pendings_incoming uid).transform
            self) :=
        findById_applyOne_eq_of _ _ _ rfl _ s1
      have s3 : findById (applyOne (applyOne
          (applyOne db (.pull uid .pendings_outgoing self._id))
          (.pull self._id .pendings_incoming uid))
          (.push self._id .friends uid)) self._id =
          some ((WriteOp.push self._id .friends uid).transform
            ((WriteOp.pull self._id .pendings_incoming uid).transform
              self)) :=
        findById_applyOne_eq_of _ _ _ rfl _ s2
      have s4 : findById (applyOne (applyOne (applyOne
          (applyOne db (.pull uid .pendings_outgoing self._id))
          (.pull self._id .pendings_incoming uid))
          (.push self._id .friends uid))
          (.push uid .friends self._id)) self._id =
          some ((WriteOp.push self._id .friends uid).transform
            ((WriteOp.pull self._id .pendings_incoming uid).transform
              self)) := by
        rw [findById_applyOne_ne _ (.push uid .friends self._id)
          self._id hne]
        exact s3
      have r1 : findById
          (applyOne db (.pull uid .pendings_outgoing self._id)) uid =
          some ((WriteOp.pull uid .pendings_outgoing self._id).transform
            requester) :=
        findById_applyOne_eq_of _ _ _ rfl _ hR
      have r2 : findById (applyOne
          (applyOne db (.pull uid .pendings_outgoing self._id))
          (.pull self._id .pendings_incoming uid)) uid =
          some ((WriteOp.pull uid .pendings_outgoing self._id).transform
            requester) := by
        rw [findById_applyOne_ne _ (.pull self._id .pendings_incoming uid)
          uid (fun hh => hne hh.symm)]
        exact r1
      have r3 : findById (applyOne (applyOne
          (applyOne db (.pull uid .pendings_outgoing self._id))
          (.pull self._id .pendings_incoming uid))
          (.push self._id .friends uid)) uid =
          some ((WriteOp.pull uid .pendings_outgoing self._id).transform
            requester) := by
        rw [findById_applyOne_ne _ (.push self._id .friends uid)
          uid (fun hh => hne hh.symm)]
        exact r2
      have r4 : findById (applyOne (applyOne (applyOne
          (applyOne db (.pull uid .pendings_outgoing self._id))
          (.pull self._id .pendings_incoming uid))
          (.push self._id .friends uid))
          (.push uid .friends self._id)) uid =
          some ((WriteOp.push uid .friends self._id).transform
            ((WriteOp.pull uid .pendings_outgoing self._id).transform
              requester)) :=
        findById_applyOne_eq_of _ _ _ rfl _ r3
      refine ⟨_, _, s4, r4, ?_, ?_, ?_, ?_⟩
      · simp [WriteOp.transform, applyField]
      · simp [WriteOp.transform, applyField]
      · intro _
        constructor
        · simp [WriteOp.transform, applyField]
        · simp [WriteOp.transform, applyField]
      · intro hc; cases hc

def c5A : StoredUser :=
  { _id := 1, nick := "a", created_at := 0, pendings_incoming := [2] }

def c5R : StoredUser :=
  { _id := 2, nick := "b", created_at := 0, pendings_outgoing := [1] }

/-- Witness for C5: confirming the pending request from user 2 removes
the pending pair and adds the matched friendship pair. -/
theorem c5_respond_request_witness :
    exceptOk (response_friend_request c5A 2 true) = true ∧
    ∃ a r,
      findById (runDB [c5A, c5R] (response_friend_request c5A 2 true))
        1 = some a ∧
      findById (runDB [c5A, c5R] (response_friend_request c5A 2 true))
        2 = some r ∧
      2 ∉ a.pendings_incoming ∧ 1 ∉ r.pendings_outgoing ∧
      (true = true → 2 ∈ a.friends ∧ 1 ∈ r.friends) ∧
      (true = false → a.friends = c5A.friends ∧
        r.friends = c5R.friends) :=
  (c5_respond_request [c5A, c5R] c5A c5R 2 true rfl (by decide)
      (by decide) (by decide)).2 (by decide)

/-- C6: every relationship operation performs its validation before its
single write batch, so an operation that returns an error leaves the
database exactly as it was; and a second `block(A, B)` right after a
successful one fails with UserNotInGroup (B is now in A.blocked) and
changes nothing. -/
theorem c6_validate_before_write (db : DB) (self : StoredUser)
    (b uid : UserId) (confirm : Bool)
    (hA : findById db self._id = some self) :
    (∀ e, send_friend_request db self uid = .error e →
      runDB db (send_friend_request db self uid) = db) ∧
    (∀ e, response_friend_request self uid confirm = .error e →
      runDB db (response_friend_request self uid confirm) = db) ∧
    (∀ e, cancel_friend_request self uid = .error e →
      runDB db (cancel_friend_request self uid) = db) ∧
    (∀ e, delete_friend self uid = .error e →
      runDB db (delete_friend self uid) = db) ∧
    (∀ e, block_user db self b = .error e →
      runDB db (block_user db self b) = db) ∧
    (∀ e, unblock_user self b = .error e →
      runDB db (unblock_user self b) = db) ∧
    (∀ ops, block_user db self b = .ok ops →
      ∀ self2, findById (applyWrites db ops) self._id = some self2 →
        block_user (applyWrites db ops) self2 b =
          .error (.UserNotInGroup "User is already blocked or invalid") ∧
        runDB (applyWrites db ops)
          (block_user (applyWrites db ops) self2 b) =
          applyWrites db ops) := by
  refine ⟨fun e he => by rw [he]; rfl, fun e he => by rw [he]; rfl,
    fun e he => by rw [he]; rfl, fun e he => by rw [he]; rfl,
    fun e he => by rw [he]; rfl, fun e he => by rw [he]; rfl, ?_⟩
  intro ops hok self2 hself2
  by_cases hc : (!valid_user_id db b false ||
      self.blocked.contains b) = true
  · have hE : block_user db self b =
        .error (.UserNotInGroup "User is already blocked or invalid") := by
      unfold block_user
      rw [if_pos hc]
    rw [hE] at hok
    exact Except.noConfusion hok
  · have hL : block_user db self b = .ok
        (WriteOp.push self._id UField.blocked b ::
          (((if self.pendings_incoming.contains b then
              [WriteOp.pull self._id UField.pendings_outgoing b,
               WriteOp.pull b UField.pendings_incoming self._id]
             else []) ++
            (if self.pendings_outgoing.contains b then
              [WriteOp.pull b UField.pendings_outgoing self._id,
               WriteOp.pull self._id UField.pendings_incoming b]
             else [])) ++
           (if self.friends.contains b then
              [WriteOp.pull self._id UField.friends b,
               WriteOp.pull b UField.friends self._id]
             else []))) := by
      unfold block_user
      rw [if_neg hc]
      rfl
    rw [hL] at hok
    injection hok with hops
    subst hops
    have h1 : findById (applyOne db (.push self._id .blocked b))
        self._id =
        some ((WriteOp.push self._id UField.blocked b).transform self) :=
      findById_applyOne_eq_of db _ _ rfl _ hA
    have htail : ∀ w ∈
        (((if self.pendings_incoming.contains b then
            [WriteOp.pull self._id UField.pendings_outgoing b,
             WriteOp.pull b UField.pendings_incoming self._id]
           else []) ++
          (if self.pendings_outgoing.contains b then
            [WriteOp.pull b UField.pendings_outgoing self._id,
             WriteOp.pull self._id UField.pendings_incoming b]
           else [])) ++
         (if self.friends.contains b then
            [WriteOp.pull self._id UField.friends b,
             WriteOp.pull b UField.friends self._id]
           else [])),
        w.field ≠ UField.blocked := by
      intro w hw
      simp only [List.mem_append] at hw
      rcases hw with (hw | hw) | hw <;> split_ifs at hw <;>
        simp only [List.mem_cons, List.not_mem_nil, or_false] at hw <;>
        rcases hw with rfl | rfl <;> simp [WriteOp.field]
    obtain ⟨u2, hu2, hub⟩ := blocked_applyWrites _ htail
      (applyOne db (.push self._id .blocked b)) self._id _ h1
    have hs2u : self2 = u2 := Option.some.inj (hself2.symm.trans hu2)
    have hcontains : self2.blocked.contains b = true := by
      rw [hs2u]
      refine List.elem_iff.mpr ?_
      rw [hub]
      simp [WriteOp.transform, applyField]
    have herr : block_user
        (applyWrites db
          (WriteOp.push self._id UField.blocked b ::
            (((if self.pendings_incoming.contains b then
                [WriteOp.pull self._id UField.pendings_outgoing b,
                 WriteOp.pull b UField.pendings_incoming self._id]
               else []) ++
              (if self.pendings_outgoing.contains b then
                [WriteOp.pull b UField.pendings_outgoing self._id,
                 WriteOp.pull self._id UField.pendings_incoming b]
               else [])) ++
             (if self.friends.contains b then
                [WriteOp.pull self._id UField.friends b,
                 WriteOp.pull b UField.friends self._id]
               else [])))) self2 b =
        .error (.UserNotInGroup "User is already blocked or invalid") := by
      have hmem : b ∈ self2.blocked := List.elem_iff.mp hcontains
      unfold block_user
      rw [if_pos (by simp [hmem])]
    exact ⟨herr, by rw [herr]; rfl⟩


def c6A : StoredUser := { _id := 1, nick := "a", created_at := 0 }

def c6B : StoredUser := { _id := 2, nick := "b", created_at := 0 }

/-- The document of user 1 after the first successful block of user 2. -/
def c6A2 : StoredUser :=
  { _id := 1, nick := "a", created_at := 0, blocked := [2] }

/-- Witness for C6: after user 1 blocks user 2, blocking again fails with
UserNotInGroup and the database is unchanged. -/
theorem c6_validate_before_write_witness :
    block_user (applyWrites [c6A, c6B] [WriteOp.push 1 UField.blocked 2])
      c6A2 2 =
      .error (.UserNotInGroup "User is already blocked or invalid") ∧
    runDB (applyWrites [c6A, c6B] [WriteOp.push 1 UField.blocked 2])
      (block_user
        (applyWrites [c6A, c6B] [WriteOp.push 1 UField.blocked 2])
        c6A2 2) =
      applyWrites [c6A, c6B] [WriteOp.push 1 UField.blocked 2] :=
  (c6_validate_before_write [c6A, c6B] c6A 2 2 true
      (by decide)).2.2.2.2.2.2
    [WriteOp.push 1 UField.blocked 2] rfl c6A2 rfl

def c9D : StoredUser :=
  { _id := 2, nick := "d", created_at := 0, deleted := true }

/-- User 1 with a stale incoming-pending edge naming the deleted user 2. -/
def c9cA : StoredUser :=
  { _id := 1, nick := "a", created_at := 0, pendings_incoming := [2] }

/-- C9 counterexample: the counterpart (user 2) is deleted, yet
`response_friend_request` succeeds on the actor's stale incoming edge
and its write batch mutates relation edges — it even adds friendship
edges naming the deleted user. -/
theorem c9_respond_mutates_for_deleted :
    c9D.deleted = true ∧
    exceptOk (response_friend_request c9cA 2 true) = true ∧
    (findById (runDB [c9cA, c9D]
        (response_friend_request c9cA 2 true)) 1).map
      (fun u => (u.friends, u.pendings_incoming)) = some ([2], []) ∧
    (findById (runDB [c9cA, c9D]
        (response_friend_request c9cA 2 true)) 2).map
      (fun u => u.friends) = some [1] := ⟨rfl, rfl, rfl, rfl⟩

/-- C9 amended: `send_friend_request` and `block_user` do reject a
deleted counterpart (it fails `_valid_user_id`), but
`response_friend_request`, `cancel_friend_request` and `delete_friend`
never validate the counterpart id against the store: whenever a stale
edge is present in the actor's loaded relation sets, they succeed and
issue their writes even though the counterpart is deleted. -/
theorem c9_deleted_counterpart (db : DB) (self : StoredUser)
    (tid : UserId)
    (hbot : self.bot = false)
    (hdel : ∀ v ∈ db, v._id = tid → v.deleted = true) :
    send_friend_request db self tid =
      .error (.InvalidUser "User isn't valid or is bot") ∧
    block_user db self tid =
      .error (.UserNotInGroup "User is already blocked or invalid") ∧
    (tid ∈ self.pendings_incoming →
      exceptOk (response_friend_request self tid true) = true) ∧
    (tid ∈ self.pendings_outgoing →
      exceptOk (cancel_friend_request self tid) = true) ∧
    (tid ∈ self.friends →
      exceptOk (delete_friend self tid) = true) := by
  have hcount : db.countP
      (fun u => u._id == tid && u.bot == false && !u.deleted) = 0 :=
    List.countP_eq_zero.mpr (by
      intro v hv
      by_cases hid : v._id = tid
      · have hd := hdel v hv hid
        simp [hd]
      · simp [hid])
  have hvalid : valid_user_id db tid false = false := by
    unfold valid_user_id
    rw [hcount]
    rfl
  refine ⟨?_, ?_, ?_, ?_, ?_⟩
  · simp [send_friend_request, hbot, hvalid]
  · simp [block_user, hvalid]
  · intro h
    simp [response_friend_request, hbot, List.elem_iff, h, exceptOk]
  · intro h
    simp [cancel_friend_request, hbot, List.elem_iff, h, exceptOk]
  · intro h
    simp [delete_friend, hbot, List.elem_iff, h, exceptOk]

/-- User 1 with stale edges of every kind naming the deleted user 2. -/
def c9A : StoredUser :=
  { _id := 1, nick := "a", created_at := 0, pendings_incoming := [2],
    pendings_outgoing := [2], friends := [2] }

/-- Witness for C9 with the deleted user 2 as counterpart. -/
theorem c9_deleted_counterpart_witness :
    send_friend_request [c9A, c9D] c9A 2 =
      .error (.InvalidUser "User isn't valid or is bot") ∧
    block_user [c9A, c9D] c9A 2 =
      .error (.UserNotInGroup "User is already blocked or invalid") ∧
    (2 ∈ c9A.pendings_incoming →
      exceptOk (response_friend_request c9A 2 true) = true) ∧
    (2 ∈ c9A.pendings_outgoing →
      exceptOk (cancel_friend_request c9A 2) = true) ∧
    (2 ∈ c9A.friends → exceptOk (delete_friend c9A 2) = true) :=
  c9_deleted_counterpart [c9A, c9D] c9A 2 rfl (by decide)

/-- C10: every profile produced by the friends or the blocked listing
reports the offline default status regardless of the stored status (the
`EXCLUDE_PUBLIC` projection drops `status` and the dataclass default
fills it back in before `public_dict` is built), and the projection also
strips `parent`, the token and all four relation sets in addition to the
credential fields. -/
theorem c10_listing_status_offline (self u : StoredUser) (db : DB)
    (fetch : List UserId) :
    (∀ p ∈ get_friends self db fetch, p.status = Status.offline) ∧
    (∀ p ∈ get_blocked db fetch, p.status = Status.offline) ∧
    (userModelOfPublic (projectPublic u)).parent = none ∧
    (userModelOfPublic (projectPublic u)).token = none ∧
    (userModelOfPublic (projectPublic u)).blocked = [] ∧
    (userModelOfPublic (projectPublic u)).friends = [] ∧
    (userModelOfPublic (projectPublic u)).pendings_outgoing = [] ∧
    (userModelOfPublic (projectPublic u)).pendings_incoming = [] ∧
    (public_dict (userModelOfPublic (projectPublic u))).status =
      Status.offline ∧
    (public_dict (userModelOfPublic (projectPublic u))).text_status =
      u.text_status := by
  refine ⟨?_, ?_, rfl, rfl, rfl, rfl, rfl, rfl, rfl, rfl⟩
  · intro p hp
    by_cases hb : self.bot = true
    · unfold get_friends at hp
      rw [if_pos hb] at hp
      exact absurd hp (List.not_mem_nil p)
    · unfold get_friends at hp
      rw [if_neg hb] at hp
      obtain ⟨v, _, rfl⟩ := List.mem_map.mp hp
      rfl
  · intro p hp
    unfold get_blocked at hp
    obtain ⟨v, _, rfl⟩ := List.mem_map.mp hp
    rfl
